import Mathlib

/-!
Verification development for the gocommands CLI core (upload / remove / list
against an iRODS-style remote namespace).

The Go sources embedded here:
  * cmd/subcmd/rm.go  — processRmCommand, removeOne
  * cmd/subcmd/ls.go  — processLsCommand, listOne, printDataObjects,
                        printDataObject, printCollections, getStatusMark
  * cmd/goput/goput.go — processCommand, putOne, putDataObject

Remote collaborators (the go-irodsclient filesystem / connection API) are
modelled as oracle bundles (structures of functions); each embedded command
returns, together with its result, the trace of remote calls it issued, so
that call-ordering and call-counting properties can be stated.

Helper functions from the `commons` package (MakeIRODSPath, StatIRODSPath,
MakeDateTimeString, MakeLocalPath) are not part of the provided sources;
where a claim depends on them they are modelled from the spec and marked as
such in their doc comments.
-/

namespace Gocommands

/-! ### Lexical path helpers (Go `path` / `path/filepath` package semantics)

These work on the character list underlying the string so that every
function evaluates inside the kernel on concrete inputs. -/

/-- Split a character list on `/`, like Go `strings.Split(s, "/")`: the
result always has one (possibly empty) group more than there are
separators. -/
def splitSlash : List Char → List (List Char)
  | [] => [[]]
  | c :: rest =>
      match splitSlash rest with
      | [] => [[]]
      | g :: gs => if c = '/' then [] :: g :: gs else (c :: g) :: gs

/-- One step of Go `path.Clean`'s component processing: push a component onto
the (reversed) stack of kept components, eliminating `..` against a preceding
component (or dropping it at the root of an absolute path). -/
def cleanStep (isAbs : Bool) (stack : List (List Char)) (c : List Char) :
    List (List Char) :=
  if c = ['.', '.'] then
    match stack with
    | [] => if isAbs then [] else [['.', '.']]
    | top :: rest => if top = ['.', '.'] then c :: stack else rest
  else
    c :: stack

/-- Interleave `/` between path components, like
`strings.Join(comps, "/")`. -/
def joinComps : List (List Char) → List Char
  | [] => []
  | [g] => g
  | g :: gs => g ++ '/' :: joinComps gs

/-- Go `path.Clean`: lexical normalization — collapse repeated slashes, drop
`.` components, resolve `..` against preceding components, drop `..` at the
root of an absolute path; empty result becomes `.` (or `/` when absolute). -/
def cleanPath (p : String) : String :=
  let cs := p.data
  let isAbs : Bool := match cs with | '/' :: _ => true | _ => false
  let comps := (splitSlash cs).filter (fun c => !c.isEmpty && c ≠ ['.'])
  let kept := (comps.foldl (cleanStep isAbs) []).reverse
  let joined := joinComps kept
  if isAbs then String.mk ('/' :: joined)
  else if joined.isEmpty then "." else String.mk joined

/-- Go `path.Base`: the last element of the path, after removing trailing
slashes; `""` gives `.`, an all-slash path gives `/`. -/
def pathBase (p : String) : String :=
  if p.data.isEmpty then "."
  else
    let q := p.data.reverse.dropWhile (fun c => c = '/')
    if q.isEmpty then "/"
    else String.mk (q.takeWhile (fun c => c ≠ '/')).reverse

/-- Go `path.Dir`: everything up to and including the final slash, cleaned;
a path with no slash gives `.`. -/
def pathDir (p : String) : String :=
  let rev := p.data.reverse
  let after := rev.dropWhile (fun c => c ≠ '/')
  if after.isEmpty then "."
  else cleanPath (String.mk after.reverse)

/-- Go `path.Join` on two elements (what `filepath.Join` computes on the
slash-separated paths this program builds): join with `/` and clean, ignoring
empty elements. -/
def joinPath (a b : String) : String :=
  if a = "" && b = "" then ""
  else if a = "" then cleanPath b
  else if b = "" then cleanPath a
  else cleanPath (a ++ "/" ++ b)

/-! ### Go string comparison

Go compares strings lexicographically; ls.go's `sort.SliceStable` calls use
the comparison `entries[i].Name < entries[j].Name`.  A stable sort by the
strict order `<` sorts by the total preorder `le a b := ¬ (b < a)`, which
for strings is lexicographic `≤`. -/

/-- Go `<` on strings, as lexicographic comparison of the character lists. -/
def charListLT : List Char → List Char → Bool
  | [], [] => false
  | [], _ :: _ => true
  | _ :: _, [] => false
  | a :: as, b :: bs =>
      if a < b then true
      else if b < a then false
      else charListLT as bs

/-- Go `<=` on strings (the negation of `<` with the arguments swapped),
as lexicographic comparison of the character lists. -/
def charListLE : List Char → List Char → Bool
  | [], _ => true
  | _ :: _, [] => false
  | a :: as, b :: bs =>
      if a < b then true
      else if b < a then false
      else charListLE as bs

theorem charListLE_eq_not_lt :
    ∀ cs ds : List Char, charListLE cs ds = !charListLT ds cs
  | [], [] => by simp [charListLE, charListLT]
  | [], _ :: _ => by simp [charListLE, charListLT]
  | _ :: _, [] => by simp [charListLE, charListLT]
  | a :: as, b :: bs => by
      rcases lt_trichotomy a b with h | h | h
      · simp [charListLE, charListLT, h, lt_asymm h]
      · subst h
        simpa [charListLE, charListLT, lt_irrefl] using
          charListLE_eq_not_lt as bs
      · simp [charListLE, charListLT, h, lt_asymm h]

theorem charListLE_total :
    ∀ cs ds : List Char, charListLE cs ds = true ∨ charListLE ds cs = true
  | [], _ => Or.inl rfl
  | _ :: _, [] => Or.inr rfl
  | a :: as, b :: bs => by
      rcases lt_trichotomy a b with h | h | h
      · exact Or.inl (by simp [charListLE, h])
      · subst h
        rcases charListLE_total as bs with h' | h'
        · exact Or.inl (by simp [charListLE, lt_irrefl, h'])
        · exact Or.inr (by simp [charListLE, lt_irrefl, h'])
      · exact Or.inr (by simp [charListLE, h])

theorem charListLE_trans :
    ∀ cs ds es : List Char, charListLE cs ds = true → charListLE ds es = true →
      charListLE cs es = true
  | [], _, _, _, _ => rfl
  | _ :: _, [], _, h1, _ => by simp [charListLE] at h1
  | _ :: _, _ :: _, [], _, h2 => by simp [charListLE] at h2
  | a :: as, b :: bs, c :: cs', h1, h2 => by
      rcases lt_trichotomy a b with hab | hab | hab
      · rcases lt_trichotomy b c with hbc | hbc | hbc
        · simp [charListLE, lt_trans hab hbc]
        · subst hbc; simp [charListLE, hab]
        · simp [charListLE, lt_asymm hbc, hbc] at h2
      · subst hab
        rcases lt_trichotomy a c with hac | hac | hac
        · simp [charListLE, hac]
        · subst hac
          simp only [charListLE, if_neg (lt_irrefl a)] at h1 h2 ⊢
          exact charListLE_trans as bs cs' h1 h2
        · exfalso
          simp [charListLE, lt_asymm hac, hac] at h2
      · simp [charListLE, lt_asymm hab, hab] at h1

/-! ### Path resolution (commons package, modelled from the spec) -/

/-- Modelled from the spec: `commons.MakeIRODSPath(cwd, home, zone, rawPath)`
is not among the provided sources.  Spec §4.1 (PathResolver): (1) empty or
`.` resolves to the current working collection; (2) a `~`-rooted path
substitutes the home collection; (3) a non-absolute path is joined under the
current working collection; (4) the result is lexically normalized.  No
network call; pure string logic. -/
def MakeIRODSPath (cwd home _zone rawPath : String) : String :=
  if rawPath = "" || rawPath = "." then cwd
  else if rawPath = "~" then home
  else
    match rawPath.data with
    | '~' :: '/' :: rest => cleanPath (home ++ String.mk ('/' :: rest))
    | '/' :: _ => cleanPath rawPath
    | _ => cleanPath (cwd ++ "/" ++ rawPath)

/-- Modelled from the spec: the two-argument `commons.MakeIRODSPath(cwd,
path)` used by goput is not among the provided sources.  Spec §4.1 rules
(1), (3), (4) with no home collection in scope: empty or `.` resolves to the
current working collection, a relative path is joined under it, and the
result is lexically normalized. -/
def MakeIRODSPathCwd (cwd rawPath : String) : String :=
  if rawPath = "" || rawPath = "." then cwd
  else
    match rawPath.data with
    | '/' :: _ => cleanPath rawPath
    | _ => cleanPath (cwd ++ "/" ++ rawPath)

/-! ### Boolean flag processing (strconv.ParseBool + silent default) -/

/-- Go `strconv.ParseBool`: accepts exactly `1 t T TRUE true True` for true
and `0 f F FALSE false False` for false; anything else is a syntax error. -/
def strconvParseBool (s : String) : Except String Bool :=
  match s with
  | "1" | "t" | "T" | "TRUE" | "true" | "True" => .ok true
  | "0" | "f" | "F" | "FALSE" | "false" | "False" => .ok false
  | _ => .error "invalid syntax"

/-- The flag-reading pattern shared by processRmCommand (rm.go lines 45-61)
and processLsCommand (ls.go lines 50-66): start from `false`, parse the
flag's string value with `strconv.ParseBool`, and on parse error fall back
to `false` without reporting the error. -/
def boolFlagValue (s : String) : Bool :=
  match strconvParseBool s with
  | .ok b => b
  | .error _ => false

/-! ### rm: removeOne and processRmCommand (cmd/subcmd/rm.go) -/

/-- Classification of a remote entry returned by the stat query
(`irodsclient_fs.FileEntry` versus the directory/collection case that
rm.go's `else` branch treats as a collection). -/
inductive EntryType where
  | file
  | dir
deriving DecidableEq, Repr

/-- One remote call issued by the remover: the classification (stat) query,
`FileSystem.RemoveFile(path, force)`, or
`FileSystem.RemoveDir(path, recurse, force)`. -/
inductive RmCall where
  | statCall (path : String)
  | removeFile (path : String) (force : Bool)
  | removeDir (path : String) (recurse : Bool) (force : Bool)
deriving DecidableEq, Repr

/-- Oracle bundle for the remote collaborators used by removeOne:
`commons.StatIRODSPath` (classification; `Except` error or entry type) and
the two delete operations (`none` = success, `some msg` = failure). -/
structure RmFS where
  stat : String → Except String EntryType
  removeFile : String → Bool → Option String
  removeDir : String → Bool → Bool → Option String

/-- rm.go `removeOne` (lines 85-121): resolve the target path, stat it, then
dispatch — a data object is removed with `RemoveFile(path, force)`; a
collection is refused when `recurse` is unset, otherwise removed with
`RemoveDir(path, recurse, force)`.  Returns the trace of remote calls
together with the Go function's error result. -/
def removeOne (fs : RmFS) (cwd home zone : String) (targetPath : String)
    (force recurse : Bool) : List RmCall × Except String Unit :=
  let targetPath := MakeIRODSPath cwd home zone targetPath
  match fs.stat targetPath with
  | .error e =>
      ([.statCall targetPath],
       .error ("failed to stat " ++ targetPath ++ ": " ++ e))
  | .ok .file =>
      match fs.removeFile targetPath force with
      | some e =>
          ([.statCall targetPath, .removeFile targetPath force],
           .error ("failed to remove " ++ targetPath ++ ": " ++ e))
      | none =>
          ([.statCall targetPath, .removeFile targetPath force], .ok ())
  | .ok .dir =>
      if !recurse then
        ([.statCall targetPath],
         .error "cannot remove a collection, recurse is not set")
      else
        match fs.removeDir targetPath recurse force with
        | some e =>
            ([.statCall targetPath, .removeDir targetPath recurse force],
             .error ("failed to remove dir " ++ targetPath ++ ": " ++ e))
        | none =>
            ([.statCall targetPath, .removeDir targetPath recurse force],
             .ok ())

/-- The argument loop of rm.go `processRmCommand` (lines 76-81): remove each
argument in order, stopping at the first failure and wrapping its error. -/
def rmLoop (fs : RmFS) (cwd home zone : String) (args : List String)
    (force recurse : Bool) : List RmCall × Except String Unit :=
  match args with
  | [] => ([], .ok ())
  | p :: rest =>
      match removeOne fs cwd home zone p force recurse with
      | (tr, .error e) =>
          (tr, .error ("failed to perform rm " ++ p ++ ": " ++ e))
      | (tr, .ok _) =>
          match rmLoop fs cwd home zone rest force recurse with
          | (tr2, r2) => (tr ++ tr2, r2)

/-- rm.go `processRmCommand` (lines 29-83), after the common-flag and
session-setup preamble (external `commons` machinery): read the `recurse`
and `force` flags with the silent-default pattern, reject an empty argument
list, and run the removal loop. -/
def processRmCommand (fs : RmFS) (cwd home zone : String)
    (recurseStr forceStr : String) (args : List String) :
    List RmCall × Except String Unit :=
  let recurse := boolFlagValue recurseStr
  let force := boolFlagValue forceStr
  if args.isEmpty then ([], .error "not enough input arguments")
  else rmLoop fs cwd home zone args force recurse

/-! ### ls: listOne, printers and processLsCommand (cmd/subcmd/ls.go) -/

/-- `irodsclient_types.IRODSReplica` — the fields ls.go reads. -/
structure IRODSReplica where
  owner : String
  number : Int
  resourceHierarchy : String
  modifyTime : String
  status : String
  checkSum : String
  path : String
deriving DecidableEq, Repr

/-- `irodsclient_types.IRODSDataObject` — the fields ls.go reads. -/
structure IRODSDataObject where
  name : String
  size : Int
  replicas : List IRODSReplica
deriving DecidableEq, Repr

/-- `irodsclient_types.IRODSCollection` — the fields ls.go reads. -/
structure IRODSCollection where
  name : String
  path : String
deriving DecidableEq, Repr

/-- An error from the go-irodsclient connection layer, split on the one
predicate ls.go tests: `irodsclient_types.IsFileNotFoundError`. -/
inductive LsErr where
  | notFound (msg : String)
  | other (msg : String)
deriving DecidableEq, Repr

/-- The message carried by a connection-layer error. -/
def LsErr.message : LsErr → String
  | .notFound m => m
  | .other m => m

/-- Oracle bundle for the connection-level calls issued by listOne:
`GetCollection`, `ListSubCollections`, `ListDataObjects`, `GetDataObject`. -/
structure LsConn where
  getCollection : String → Except LsErr IRODSCollection
  listSubCollections : String → Except LsErr (List IRODSCollection)
  listDataObjects : IRODSCollection → Except LsErr (List IRODSDataObject)
  getDataObject : IRODSCollection → String → Except LsErr IRODSDataObject

/-- ls.go `getStatusMark` (lines 184-193): replica status `"0"` renders as
`X` (stale), `"1"` as `&` (good), anything else as `?`. -/
def getStatusMark (status : String) : String :=
  match status with
  | "0" => "X"
  | "1" => "&"
  | _ => "?"

/-- ls.go `printDataObject` (lines 156-171) as the list of lines it prints;
`mkDT` stands for `commons.MakeDateTimeString` (outside the provided
sources), applied to the replica's modify time exactly where the source
does. -/
def printDataObject (entry : IRODSDataObject) (veryLongFormat longFormat : Bool)
    (mkDT : String → String) : List String :=
  if veryLongFormat then
    entry.replicas.flatMap (fun replica =>
      ["  " ++ replica.owner ++ "\t" ++ toString replica.number ++ "\t" ++
         replica.resourceHierarchy ++ "\t" ++ toString entry.size ++ "\t" ++
         mkDT replica.modifyTime ++ "\t" ++ getStatusMark replica.status ++
         "\t" ++ entry.name,
       "    " ++ replica.checkSum ++ "\t" ++ replica.path])
  else if longFormat then
    entry.replicas.map (fun replica =>
      "  " ++ replica.owner ++ "\t" ++ toString replica.number ++ "\t" ++
        replica.resourceHierarchy ++ "\t" ++ toString entry.size ++ "\t" ++
        mkDT replica.modifyTime ++ "\t" ++ getStatusMark replica.status ++
        "\t" ++ entry.name)
  else
    ["  " ++ entry.name]

/-- Lexicographic `≤` on names, the total preorder under which
`sort.SliceStable(less)` with `less i j = Name i < Name j` sorts (see the
Go string-comparison section above). -/
def nameLE (a b : String) : Prop :=
  charListLE a.data b.data = true

instance : DecidableRel nameLE :=
  fun a b => inferInstanceAs (Decidable (charListLE a.data b.data = true))

instance : IsTotal String nameLE :=
  ⟨fun a b => charListLE_total a.data b.data⟩

instance : IsTrans String nameLE :=
  ⟨fun a b c => charListLE_trans a.data b.data c.data⟩

/-- The `sort.SliceStable` comparison of `printDataObjects` (ls.go lines
147-149), as the total preorder it sorts by: ascending data-object name. -/
def objLE (a b : IRODSDataObject) : Prop :=
  nameLE a.name b.name

instance : DecidableRel objLE :=
  fun a b => inferInstanceAs (Decidable (nameLE a.name b.name))

instance : IsTotal IRODSDataObject objLE :=
  ⟨fun a b => IsTotal.total (r := nameLE) a.name b.name⟩

instance : IsTrans IRODSDataObject objLE :=
  ⟨fun _ _ _ hab hbc => Trans.trans (r := nameLE) hab hbc⟩

/-- ls.go `printDataObjects` (lines 145-154): stable-sort by name ascending,
then print each entry.  `sort.SliceStable` is modelled by insertion sort,
which is stable; a stable sort by a total preorder has a unique result, so
this is the behavior of any stable sort. -/
def printDataObjects (entries : List IRODSDataObject)
    (veryLongFormat longFormat : Bool) (mkDT : String → String) :
    List String :=
  (entries.insertionSort objLE).flatMap
    (fun entry => printDataObject entry veryLongFormat longFormat mkDT)

/-- The `sort.SliceStable` comparison of `printCollections` (ls.go lines
175-177), as the total preorder it sorts by: ascending collection name. -/
def collLE (a b : IRODSCollection) : Prop :=
  nameLE a.name b.name

instance : DecidableRel collLE :=
  fun a b => inferInstanceAs (Decidable (nameLE a.name b.name))

instance : IsTotal IRODSCollection collLE :=
  ⟨fun a b => IsTotal.total (r := nameLE) a.name b.name⟩

instance : IsTrans IRODSCollection collLE :=
  ⟨fun _ _ _ hab hbc => Trans.trans (r := nameLE) hab hbc⟩

/-- ls.go `printCollections` (lines 173-182): stable-sort by name ascending,
then print one `C- <path>` line per collection. -/
def printCollections (entries : List IRODSCollection) : List String :=
  (entries.insertionSort collLE).map (fun entry => "  C- " ++ entry.path)

/-- ls.go `listOne` (lines 93-143): resolve the path, try the collection
lookup; on success list sub-collections and data objects and print objects
then collections; on a not-found failure fall back to the parent collection
and the single data object of the base name; propagate any other failure.
Returns the printed lines, or the Go function's error. -/
def listOne (conn : LsConn) (mkDT : String → String) (cwd home zone : String)
    (sourcePath : String) (longFormat veryLongFormat : Bool) :
    Except String (List String) :=
  let sourcePath := MakeIRODSPath cwd home zone sourcePath
  match conn.getCollection sourcePath with
  | .ok collection =>
      match conn.listSubCollections sourcePath with
      | .error e =>
          .error ("failed to list sub-collections in " ++ sourcePath ++ ": " ++
            e.message)
      | .ok colls =>
          match conn.listDataObjects collection with
          | .error e =>
              .error ("failed to list data-objects in " ++ sourcePath ++ ": " ++
                e.message)
          | .ok objs =>
              .ok (printDataObjects objs veryLongFormat longFormat mkDT ++
                   printCollections colls)
  | .error (.other m) =>
      .error ("failed to get collection " ++ sourcePath ++ ": " ++ m)
  | .error (.notFound _) =>
      let parentSourcePath := pathDir sourcePath
      match conn.getCollection parentSourcePath with
      | .error e =>
          .error ("failed to get collection " ++ parentSourcePath ++ ": " ++
            e.message)
      | .ok parentCollection =>
          match conn.getDataObject parentCollection (pathBase sourcePath) with
          | .error e =>
              .error ("failed to get data-object " ++ sourcePath ++ ": " ++
                e.message)
          | .ok entry =>
              .ok (printDataObject entry veryLongFormat longFormat mkDT)

/-- The argument loop of ls.go `processLsCommand` (lines 83-88): list each
path in order; a failure stops the loop and wraps the error (lines already
printed for earlier paths stand — listOne itself prints nothing on its own
failure). -/
def lsLoop (conn : LsConn) (mkDT : String → String) (cwd home zone : String)
    (paths : List String) (longFormat veryLongFormat : Bool) :
    List String × Option String :=
  match paths with
  | [] => ([], none)
  | p :: rest =>
      match listOne conn mkDT cwd home zone p longFormat veryLongFormat with
      | .error e => ([], some ("failed to perform ls " ++ p ++ ": " ++ e))
      | .ok out =>
          match lsLoop conn mkDT cwd home zone rest longFormat veryLongFormat with
          | (outRest, err) => (out ++ outRest, err)

/-- ls.go `processLsCommand` (lines 34-91), after the common-flag and
session-setup preamble (external `commons` machinery): read the `long` and
`verylong` flags with the silent-default pattern, default an empty argument
list to `["."]`, and run the listing loop. -/
def processLsCommand (conn : LsConn) (mkDT : String → String)
    (cwd home zone : String) (longStr veryLongStr : String)
    (args : List String) : List String × Option String :=
  let longFormat := boolFlagValue longStr
  let veryLongFormat := boolFlagValue veryLongStr
  let sourcePaths := if args.isEmpty then ["."] else args
  lsLoop conn mkDT cwd home zone sourcePaths longFormat veryLongFormat

/-! ### put: putOne and putDataObject (cmd/goput/goput.go) -/

/-- A node of the local filesystem subtree being uploaded, as the walk
observes it through `os.Stat` (the `IsDir` test) and `os.ReadDir` (the
ordered child list).  Modelling the local tree as given data reflects that
goput.go's recursion follows the acyclic local directory structure; the
claims under verification do not concern local-IO failures. -/
inductive LocalEntry where
  | file (name : String)
  | dir (name : String) (entries : List LocalEntry)

/-- The name under which a directory entry is listed by `os.ReadDir`
(`entryInDir.Name()`). -/
def LocalEntry.entryName : LocalEntry → String
  | .file name => name
  | .dir name _ => name

/-- One remote call issued by the uploader: `FileSystem.MakeDir(path,
recursive)` or the file upload `FileSystem.UploadFileParallel(localPath,
remotePath, ...)` issued by `putDataObject`. -/
inductive PutCall where
  | makeDir (path : String) (recursive : Bool)
  | uploadFile (localPath : String) (remotePath : String)
deriving DecidableEq, Repr

/-- Oracle bundle for the remote collaborators used by putOne (`none` =
success, `some msg` = failure). -/
structure PutFS where
  makeDir : String → Bool → Option String
  uploadFile : String → String → Option String

/-- goput.go `putDataObject` (lines 130-144): upload one local file into the
target collection. -/
def putDataObject (rfs : PutFS) (sourcePath targetPath : String) :
    List PutCall × Option String :=
  ([.uploadFile sourcePath targetPath], rfs.uploadFile sourcePath targetPath)

mutual

/-- goput.go `putOne` (lines 94-128): resolve the target, then — for a file,
upload it into the target collection; for a directory, create the remote
sub-collection `Join(target, Base(source))` with `MakeDir(…, true)` and
recurse into each child in `os.ReadDir` order, the child's target being the
new sub-collection.  The first failing child aborts the walk.  (The
`commons.MakeLocalPath` local-path cleanup applied to the user's top-level
argument is outside the provided sources and is elided: source paths are
quantified over as opaque labels.)  Returns the trace of remote calls and
the Go function's error result. -/
def putOne (rfs : PutFS) (cwd : String) (entry : LocalEntry)
    (sourcePath targetPath : String) : List PutCall × Option String :=
  let targetPath := MakeIRODSPathCwd cwd targetPath
  match entry with
  | .file _ => putDataObject rfs sourcePath targetPath
  | .dir _ entries =>
      let targetDir := joinPath targetPath (pathBase sourcePath)
      match rfs.makeDir targetDir true with
      | some e => ([.makeDir targetDir true], some e)
      | none =>
          match putList rfs cwd entries sourcePath targetDir with
          | (tr, res) => (.makeDir targetDir true :: tr, res)
termination_by structural entry

/-- The child loop of goput.go `putOne` (lines 120-125): upload each
directory entry in order into `targetDir`, each via a recursive `putOne`
on `Join(sourcePath, entry.Name())`; stop at the first failure. -/
def putList (rfs : PutFS) (cwd : String) (entries : List LocalEntry)
    (sourceDir targetDir : String) : List PutCall × Option String :=
  match entries with
  | [] => ([], none)
  | e :: rest =>
      match putOne rfs cwd e (joinPath sourceDir e.entryName) targetDir with
      | (tr, some err) => (tr, some err)
      | (tr, none) =>
          match putList rfs cwd rest sourceDir targetDir with
          | (tr2, res2) => (tr ++ tr2, res2)
termination_by structural entries

end

/-! ### Auxiliary predicates and concrete oracles used by the theorems -/

/-- Is this remover call one of the two remote delete operations? -/
def RmCall.isDelete : RmCall → Bool
  | .statCall _ => false
  | .removeFile _ _ => true
  | .removeDir _ _ _ => true

/-- Is this remover call the classification (stat) query? -/
def RmCall.isStat : RmCall → Bool
  | .statCall _ => true
  | .removeFile _ _ => false
  | .removeDir _ _ _ => false

/-- A remote namespace in which every path stats as a collection and both
delete operations succeed. -/
def rmFSAllDirs : RmFS where
  stat := fun _ => .ok .dir
  removeFile := fun _ _ => none
  removeDir := fun _ _ _ => none

/-- A remote namespace in which every path stats as a data object and both
delete operations succeed. -/
def rmFSAllFiles : RmFS where
  stat := fun _ => .ok .file
  removeFile := fun _ _ => none
  removeDir := fun _ _ _ => none

/-- A remote namespace whose stat query always fails (a transport-style
classification failure). -/
def rmFSStatFails : RmFS where
  stat := fun _ => .error "connection refused"
  removeFile := fun _ _ => none
  removeDir := fun _ _ _ => none

/-- An upload target on which every remote call succeeds. -/
def putFSAllOk : PutFS where
  makeDir := fun _ _ => none
  uploadFile := fun _ _ => none

/-- An upload target on which directory creation succeeds but every file
upload fails. -/
def putFSUploadFails : PutFS where
  makeDir := fun _ _ => none
  uploadFile := fun _ _ => some "upload refused"

/-! ### C1 — the collection safety gate of removeOne -/

/-- C1 (counterexample): the claim quotes the safety-gate error message as
"refusing to remove non-empty collection without recurse", but on a target
classified as a collection with `recurse` unset, removeOne returns the
message "cannot remove a collection, recurse is not set" (rm.go line 111),
which is a different string. -/
theorem rm_safety_gate_message_cex :
    (removeOne rmFSAllDirs "/z/home/u" "/z/home" "z" "coll" false false).2 =
      .error "cannot remove a collection, recurse is not set" ∧
    (removeOne rmFSAllDirs "/z/home/u" "/z/home" "z" "coll" false false).2 ≠
      .error "refusing to remove non-empty collection without recurse" := by
  constructor
  · rfl
  · have h1 : (removeOne rmFSAllDirs "/z/home/u" "/z/home" "z" "coll" false false).2 =
        .error "cannot remove a collection, recurse is not set" := rfl
    rw [h1]
    intro hEq
    exact (by decide :
      ¬ ("cannot remove a collection, recurse is not set" =
         "refusing to remove non-empty collection without recurse"))
      (Except.error.inj hEq)

/-- C1 (amended): for every invocation of the remover on a target that
classification reports as a collection, if the recurse flag is false then
removeOne returns the safety-gate error ("cannot remove a collection,
recurse is not set") before issuing any remote delete call — the complete
call trace is the single classification query, so neither RemoveFile nor
RemoveDir is called — regardless of whether the collection is empty. -/
theorem rm_collection_safety_gate (fs : RmFS) (cwd home zone raw : String)
    (force : Bool)
    (h : fs.stat (MakeIRODSPath cwd home zone raw) = .ok .dir) :
    removeOne fs cwd home zone raw force false =
      ([.statCall (MakeIRODSPath cwd home zone raw)],
       .error "cannot remove a collection, recurse is not set") := by
  simp [removeOne, h]

/-- C1 (witness): the amended theorem applied to a concrete namespace where
`/z/home/u/coll` stats as a collection. -/
theorem rm_collection_safety_gate_witness :
    rmFSAllDirs.stat (MakeIRODSPath "/z/home/u" "/z/home" "z" "coll") =
      .ok .dir ∧
    removeOne rmFSAllDirs "/z/home/u" "/z/home" "z" "coll" true false =
      ([.statCall (MakeIRODSPath "/z/home/u" "/z/home" "z" "coll")],
       .error "cannot remove a collection, recurse is not set") :=
  ⟨rfl, rm_collection_safety_gate rmFSAllDirs "/z/home/u" "/z/home" "z" "coll"
    true rfl⟩

/-! ### C2 — data-object removal issues exactly one RemoveFile -/

/-- C2: for every invocation of the remover on a target that classification
reports as a data object, the complete remote-call trace is the
classification query followed by exactly one RemoveFile on the resolved
target path with the force flag passed through unchanged — in particular no
collection-removal call is issued — and the result is RemoveFile's result
(an error from RemoveFile is wrapped and propagated). -/
theorem rm_dataobject_single_removefile (fs : RmFS) (cwd home zone raw : String)
    (force recurse : Bool)
    (h : fs.stat (MakeIRODSPath cwd home zone raw) = .ok .file) :
    (removeOne fs cwd home zone raw force recurse).1 =
      [.statCall (MakeIRODSPath cwd home zone raw),
       .removeFile (MakeIRODSPath cwd home zone raw) force] ∧
    (removeOne fs cwd home zone raw force recurse).2 =
      (match fs.removeFile (MakeIRODSPath cwd home zone raw) force with
       | none => .ok ()
       | some e =>
           .error ("failed to remove " ++ MakeIRODSPath cwd home zone raw ++
             ": " ++ e)) := by
  cases hrf : fs.removeFile (MakeIRODSPath cwd home zone raw) force <;>
    simp [removeOne, h, hrf]

/-- C2 (witness): the theorem applied to a concrete namespace where
`/z/home/u/obj.txt` stats as a data object; the force flag `true` reaches
the RemoveFile call unchanged. -/
theorem rm_dataobject_single_removefile_witness :
    rmFSAllFiles.stat (MakeIRODSPath "/z/home/u" "/z/home" "z" "obj.txt") =
      .ok .file ∧
    (removeOne rmFSAllFiles "/z/home/u" "/z/home" "z" "obj.txt" true false).1 =
      [.statCall (MakeIRODSPath "/z/home/u" "/z/home" "z" "obj.txt"),
       .removeFile (MakeIRODSPath "/z/home/u" "/z/home" "z" "obj.txt") true] :=
  ⟨rfl, (rm_dataobject_single_removefile rmFSAllFiles "/z/home/u" "/z/home" "z"
    "obj.txt" true false rfl).1⟩

/-! ### C5 — the replica status-mark mapping -/

/-- C5: the status-mark function is total (it is a Lean function into
String) and is the fixed three-way mapping: status "1" renders as "&",
status "0" as "X", and every other string as "?"; no input is an error. -/
theorem status_mark_total_three_way (s : String) :
    getStatusMark "1" = "&" ∧ getStatusMark "0" = "X" ∧
    (s ≠ "0" → s ≠ "1" → getStatusMark s = "?") := by
  refine ⟨rfl, rfl, fun h0 h1 => ?_⟩
  unfold getStatusMark
  split
  · simp_all
  · simp_all
  · rfl

/-- C5 (witness): the theorem at the spec's example input "9". -/
theorem status_mark_total_three_way_witness :
    getStatusMark "1" = "&" ∧ getStatusMark "0" = "X" ∧ getStatusMark "9" = "?" :=
  ⟨(status_mark_total_three_way "9").1,
   (status_mark_total_three_way "9").2.1,
   (status_mark_total_three_way "9").2.2 (by decide) (by decide)⟩

/-! ### C7 — exactly one classification query; stat failure propagates -/

/-- C7: every invocation of the remover performs exactly one classification
(stat) query — the trace contains exactly one stat call on every control
path — and if that query fails (including with not-found, which
StatIRODSPath surfaces as an error) the error is propagated without retry
and the trace is the lone stat call: no remote removal call of either kind
is issued. -/
theorem rm_single_classification_and_propagation :
    (∀ (fs : RmFS) (cwd home zone raw : String) (force recurse : Bool),
       (removeOne fs cwd home zone raw force recurse).1.countP RmCall.isStat
         = 1) ∧
    (∀ (fs : RmFS) (cwd home zone raw : String) (force recurse : Bool)
       (e : String),
       fs.stat (MakeIRODSPath cwd home zone raw) = .error e →
       removeOne fs cwd home zone raw force recurse =
         ([.statCall (MakeIRODSPath cwd home zone raw)],
          .error ("failed to stat " ++ MakeIRODSPath cwd home zone raw ++
            ": " ++ e))) := by
  constructor
  · intro fs cwd home zone raw force recurse
    cases hstat : fs.stat (MakeIRODSPath cwd home zone raw) with
    | error e => simp [removeOne, hstat, List.countP, List.countP.go, RmCall.isStat]
    | ok t =>
      cases t with
      | file =>
        cases hrf : fs.removeFile (MakeIRODSPath cwd home zone raw) force <;>
          simp [removeOne, hstat, hrf, List.countP, List.countP.go, RmCall.isStat]
      | dir =>
        cases recurse with
        | false =>
            simp [removeOne, hstat, List.countP, List.countP.go, RmCall.isStat]
        | true =>
            cases hrd : fs.removeDir (MakeIRODSPath cwd home zone raw) true force <;>
              simp [removeOne, hstat, hrd, List.countP, List.countP.go,
                RmCall.isStat]
  · intro fs cwd home zone raw force recurse e h
    simp [removeOne, h]

/-- C7 (witness): the first part at a concrete successful removal, and the
second part at a concrete namespace whose stat query fails with a
transport-style error. -/
theorem rm_single_classification_and_propagation_witness :
    (removeOne rmFSAllFiles "/z/home/u" "/z/home" "z" "obj.txt" false
      false).1.countP RmCall.isStat = 1 ∧
    removeOne rmFSStatFails "/z/home/u" "/z/home" "z" "obj.txt" false false =
      ([.statCall (MakeIRODSPath "/z/home/u" "/z/home" "z" "obj.txt")],
       .error ("failed to stat " ++
         MakeIRODSPath "/z/home/u" "/z/home" "z" "obj.txt" ++
         ": " ++ "connection refused")) :=
  ⟨rm_single_classification_and_propagation.1 rmFSAllFiles "/z/home/u" "/z/home"
     "z" "obj.txt" false false,
   rm_single_classification_and_propagation.2 rmFSStatFails "/z/home/u" "/z/home"
     "z" "obj.txt" false false "connection refused" rfl⟩

/-! ### C3 — sub-collection created before its children are uploaded -/

/-- C3: for every local directory uploaded by putOne, the remote
sub-collection named after the directory's base name is created (via
recursive, hence idempotent, MakeDir) before any other remote call of that
invocation — the MakeDir heads the invocation's trace, and every child's
calls follow it; in particular uploading the local tree
root/(a.txt, sub/b.txt) against remote target /z/home/u/T issues, in order:
create T/root, upload a.txt into T/root, create T/root/sub, upload b.txt
into T/root/sub. -/
theorem put_subcollection_created_first :
    (∀ (rfs : PutFS) (cwd name : String) (entries : List LocalEntry)
       (sourcePath targetPath : String), ∃ rest,
       (putOne rfs cwd (.dir name entries) sourcePath targetPath).1 =
         .makeDir (joinPath (MakeIRODSPathCwd cwd targetPath)
           (pathBase sourcePath)) true :: rest) ∧
    (putOne putFSAllOk "/z/home/u"
       (.dir "root" [.file "a.txt", .dir "sub" [.file "b.txt"]])
       "root" "/z/home/u/T").1 =
      [.makeDir "/z/home/u/T/root" true,
       .uploadFile "root/a.txt" "/z/home/u/T/root",
       .makeDir "/z/home/u/T/root/sub" true,
       .uploadFile "root/sub/b.txt" "/z/home/u/T/root/sub"] := by
  constructor
  · intro rfs cwd name entries sourcePath targetPath
    cases hmd : rfs.makeDir (joinPath (MakeIRODSPathCwd cwd targetPath)
        (pathBase sourcePath)) true with
    | none =>
        refine ⟨(putList rfs cwd entries sourcePath
          (joinPath (MakeIRODSPathCwd cwd targetPath) (pathBase sourcePath))).1,
          ?_⟩
        simp [putOne, hmd]
    | some e => exact ⟨[], by simp [putOne, hmd]⟩
  · decide

/-! ### C8 — the recursive upload is fail-fast -/

/-- C8: the directory walk of putOne is fail-fast — if the entries before
`e` all succeed and uploading `e` fails, the loop's trace is exactly the
successful prefix's calls followed by `e`'s calls, the error is returned,
and no later sibling of `e` contributes any call; and a failing child loop
aborts the enclosing directory's putOne invocation with the same error,
which therefore propagates upward. -/
theorem put_walk_failfast :
    (∀ (rfs : PutFS) (cwd : String) (pre : List LocalEntry) (e : LocalEntry)
       (rest : List LocalEntry) (sourceDir targetDir : String)
       (tr1 tr : List PutCall) (err : String),
       putList rfs cwd pre sourceDir targetDir = (tr1, none) →
       putOne rfs cwd e (joinPath sourceDir e.entryName) targetDir =
         (tr, some err) →
       putList rfs cwd (pre ++ e :: rest) sourceDir targetDir =
         (tr1 ++ tr, some err)) ∧
    (∀ (rfs : PutFS) (cwd name : String) (entries : List LocalEntry)
       (sourcePath targetPath : String) (tr : List PutCall) (err : String),
       rfs.makeDir (joinPath (MakeIRODSPathCwd cwd targetPath)
         (pathBase sourcePath)) true = none →
       putList rfs cwd entries sourcePath
         (joinPath (MakeIRODSPathCwd cwd targetPath) (pathBase sourcePath)) =
           (tr, some err) →
       putOne rfs cwd (.dir name entries) sourcePath targetPath =
         (.makeDir (joinPath (MakeIRODSPathCwd cwd targetPath)
            (pathBase sourcePath)) true :: tr, some err)) := by
  constructor
  · intro rfs cwd pre e rest sourceDir targetDir tr1 tr err h1 h2
    induction pre generalizing tr1 with
    | nil =>
        simp [putList] at h1
        subst h1
        simp [putList, h2]
    | cons a pre' ih =>
        cases ha : putOne rfs cwd a (joinPath sourceDir a.entryName) targetDir with
        | mk tra ra =>
          cases ra with
          | some e' =>
              simp [putList, ha] at h1
          | none =>
              cases hb : putList rfs cwd pre' sourceDir targetDir with
              | mk trb rb =>
                simp [putList, ha, hb] at h1
                obtain ⟨h1a, h1b⟩ := h1
                subst h1b
                have hrec := ih trb hb
                simp [putList, ha, hrec, ← h1a, List.append_assoc]
  · intro rfs cwd name entries sourcePath targetPath tr err h1 h2
    simp [putOne, h1, h2]

/-- C8 (witness): both parts at a concrete failing upload — the sibling
b.txt after the failing a.txt contributes no call, and the failing child
loop aborts the enclosing directory invocation. -/
theorem put_walk_failfast_witness :
    putList putFSUploadFails "/c"
        ([] ++ LocalEntry.file "a.txt" :: [LocalEntry.file "b.txt"])
        "root" "/t" =
      ([] ++ [PutCall.uploadFile "root/a.txt" "/t"], some "upload refused") ∧
    putOne putFSUploadFails "/c" (.dir "d" [LocalEntry.file "a.txt"])
        "root" "/t" =
      (.makeDir (joinPath (MakeIRODSPathCwd "/c" "/t") (pathBase "root")) true ::
         [PutCall.uploadFile "root/a.txt" "/t/root"], some "upload refused") :=
  ⟨put_walk_failfast.1 putFSUploadFails "/c" [] (.file "a.txt")
     [.file "b.txt"] "root" "/t" [] [.uploadFile "root/a.txt" "/t"]
     "upload refused" (by decide) (by decide),
   put_walk_failfast.2 putFSUploadFails "/c" "d" [.file "a.txt"] "root" "/t"
     [.uploadFile "root/a.txt" "/t/root"] "upload refused" (by decide)
     (by decide)⟩

/-! ### C4 — collection listing: sort each section, objects before collections -/

/-- A concrete remote namespace with collection `/T` holding data objects
named `b`, `a` (in that enumeration order) and sub-collections named `z`,
`y` (in that enumeration order). -/
def connC4 : LsConn where
  getCollection := fun p =>
    if p = "/T" then .ok { name := "T", path := "/T" }
    else .error (.notFound ("collection not found " ++ p))
  listSubCollections := fun _ =>
    .ok [{ name := "z", path := "/T/z" }, { name := "y", path := "/T/y" }]
  listDataObjects := fun _ =>
    .ok [{ name := "b", size := 1, replicas := [] },
         { name := "a", size := 2, replicas := [] }]
  getDataObject := fun _ _ => .error (.notFound "no object")

/-- C4: when the collection lookup succeeds, the lister fetches the
sub-collections and the direct data objects and renders the data-objects
section first and the sub-collections section second; each section is the
stable sort of its set ascending by name (sorted, a permutation of the
input, and stable: a pair already in `≤` order keeps its relative order);
concretely, the short form on objects enumerated `b, a` and sub-collections
enumerated `z, y` renders `a, b` then `C- /T/y, C- /T/z`. -/
theorem ls_collection_render :
    (∀ (conn : LsConn) (mkDT : String → String) (cwd home zone raw : String)
       (l vl : Bool) (collection : IRODSCollection)
       (colls : List IRODSCollection) (objs : List IRODSDataObject),
       conn.getCollection (MakeIRODSPath cwd home zone raw) = .ok collection →
       conn.listSubCollections (MakeIRODSPath cwd home zone raw) = .ok colls →
       conn.listDataObjects collection = .ok objs →
       listOne conn mkDT cwd home zone raw l vl =
         .ok (printDataObjects objs vl l mkDT ++ printCollections colls)) ∧
    (∀ objs : List IRODSDataObject,
       (objs.insertionSort objLE).Sorted objLE ∧
       List.Perm (objs.insertionSort objLE) objs) ∧
    (∀ colls : List IRODSCollection,
       (colls.insertionSort collLE).Sorted collLE ∧
       List.Perm (colls.insertionSort collLE) colls) ∧
    (∀ (objs : List IRODSDataObject) (a b : IRODSDataObject),
       objLE a b → List.Sublist [a, b] objs →
         List.Sublist [a, b] (objs.insertionSort objLE)) ∧
    listOne connC4 id "/T" "/h" "z" "." false false =
      .ok ["  a", "  b", "  C- /T/y", "  C- /T/z"] := by
  refine ⟨?_, ?_, ?_, ?_, rfl⟩
  · intro conn mkDT cwd home zone raw l vl collection colls objs h1 h2 h3
    simp [listOne, h1, h2, h3]
  · intro objs
    exact ⟨List.sorted_insertionSort objLE objs, List.perm_insertionSort objLE objs⟩
  · intro colls
    exact ⟨List.sorted_insertionSort collLE colls,
      List.perm_insertionSort collLE colls⟩
  · intro objs a b hab h
    exact List.pair_sublist_insertionSort hab h

/-- C4 (witness): the success-path part applied to the concrete namespace
`connC4`. -/
theorem ls_collection_render_witness :
    listOne connC4 id "/T" "/h" "z" "." false false =
      .ok (printDataObjects
             [{ name := "b", size := 1, replicas := [] },
              { name := "a", size := 2, replicas := [] }] false false id ++
           printCollections
             [{ name := "z", path := "/T/z" }, { name := "y", path := "/T/y" }]) :=
  ls_collection_render.1 connC4 id "/T" "/h" "z" "." false false
    { name := "T", path := "/T" }
    [{ name := "z", path := "/T/z" }, { name := "y", path := "/T/y" }]
    [{ name := "b", size := 1, replicas := [] },
     { name := "a", size := 2, replicas := [] }]
    rfl rfl rfl

/-! ### C6 — not-found fallback to the data-object path -/

/-- A concrete remote namespace with collection `/T` holding the single
data object `obj.txt`, used to exercise the lister's data-object
fallback. -/
def connC6 : LsConn where
  getCollection := fun p =>
    if p = "/T" then .ok { name := "T", path := "/T" }
    else .error (.notFound ("collection not found " ++ p))
  listSubCollections := fun _ => .ok []
  listDataObjects := fun _ => .ok []
  getDataObject := fun c n =>
    if c.path = "/T" && n = "obj.txt" then
      .ok { name := "obj.txt", size := 3, replicas := [] }
    else .error (.notFound "no object")

/-- A remote namespace on which every collection lookup fails with a
non-not-found error. -/
def connDown : LsConn where
  getCollection := fun _ => .error (.other "permission denied")
  listSubCollections := fun _ => .error (.other "permission denied")
  listDataObjects := fun _ => .error (.other "permission denied")
  getDataObject := fun _ _ => .error (.other "permission denied")

/-- C6: if the collection lookup fails with not-found, the lister falls
back to the data-object path — it looks up the parent collection (path.Dir)
and fetches the single entry by base name (path.Base), rendering that
entry; if the initial lookup fails with any error other than not-found, or
the parent lookup fails with any error, that error is propagated (wrapped
once, no retry) and the result is an error, so nothing is rendered. -/
theorem ls_notfound_fallback :
    (∀ (conn : LsConn) (mkDT : String → String) (cwd home zone raw : String)
       (l vl : Bool) (m : String) (parent : IRODSCollection)
       (entry : IRODSDataObject),
       conn.getCollection (MakeIRODSPath cwd home zone raw) =
         .error (.notFound m) →
       conn.getCollection (pathDir (MakeIRODSPath cwd home zone raw)) =
         .ok parent →
       conn.getDataObject parent (pathBase (MakeIRODSPath cwd home zone raw)) =
         .ok entry →
       listOne conn mkDT cwd home zone raw l vl =
         .ok (printDataObject entry vl l mkDT)) ∧
    (∀ (conn : LsConn) (mkDT : String → String) (cwd home zone raw : String)
       (l vl : Bool) (m : String),
       conn.getCollection (MakeIRODSPath cwd home zone raw) =
         .error (.other m) →
       listOne conn mkDT cwd home zone raw l vl =
         .error ("failed to get collection " ++
           MakeIRODSPath cwd home zone raw ++ ": " ++ m)) ∧
    (∀ (conn : LsConn) (mkDT : String → String) (cwd home zone raw : String)
       (l vl : Bool) (m : String) (e2 : LsErr),
       conn.getCollection (MakeIRODSPath cwd home zone raw) =
         .error (.notFound m) →
       conn.getCollection (pathDir (MakeIRODSPath cwd home zone raw)) =
         .error e2 →
       listOne conn mkDT cwd home zone raw l vl =
         .error ("failed to get collection " ++
           pathDir (MakeIRODSPath cwd home zone raw) ++ ": " ++ e2.message)) := by
  refine ⟨?_, ?_, ?_⟩
  · intro conn mkDT cwd home zone raw l vl m parent entry h1 h2 h3
    simp [listOne, h1, h2, h3]
  · intro conn mkDT cwd home zone raw l vl m h1
    simp [listOne, h1]
  · intro conn mkDT cwd home zone raw l vl m e2 h1 h2
    simp [listOne, h1, h2]

/-- C6 (witness): the fallback at `/T/obj.txt` in the concrete namespace
`connC6` (collection lookup misses, parent `/T` found, the object is
rendered); the other-error case on `connDown`; and a failing parent lookup
at `/X/y` in `connC6`. -/
theorem ls_notfound_fallback_witness :
    listOne connC6 id "/T" "/h" "z" "/T/obj.txt" false false =
      .ok (printDataObject { name := "obj.txt", size := 3, replicas := [] }
        false false id) ∧
    listOne connDown id "/T" "/h" "z" "/T" false false =
      .error ("failed to get collection " ++ MakeIRODSPath "/T" "/h" "z" "/T" ++
        ": " ++ "permission denied") ∧
    listOne connC6 id "/T" "/h" "z" "/X/y" false false =
      .error ("failed to get collection " ++
        pathDir (MakeIRODSPath "/T" "/h" "z" "/X/y") ++ ": " ++
        LsErr.message (.notFound ("collection not found " ++ "/X"))) :=
  ⟨ls_notfound_fallback.1 connC6 id "/T" "/h" "z" "/T/obj.txt" false false
     ("collection not found " ++ "/T/obj.txt") { name := "T", path := "/T" }
     { name := "obj.txt", size := 3, replicas := [] }
     rfl rfl rfl,
   ls_notfound_fallback.2.1 connDown id "/T" "/h" "z" "/T" false false
     "permission denied" rfl,
   ls_notfound_fallback.2.2 connC6 id "/T" "/h" "z" "/X/y" false false
     ("collection not found " ++ "/X/y")
     (.notFound ("collection not found " ++ "/X")) rfl rfl⟩

/-! ### C9 — malformed boolean flags silently default to false -/

/-- C9: for every boolean command-line flag (recurse and force in rm; long
and verylong in ls), if strconv.ParseBool fails on the flag's string value
the flag silently defaults to false — the flag value computed is `false`,
and each command behaves exactly as if the flag string had been "false";
flag processing itself returns no error (it is a total function into
Bool). -/
theorem boolflag_silent_default (s e : String)
    (h : strconvParseBool s = .error e) :
    boolFlagValue s = false ∧
    (∀ (fs : RmFS) (cwd home zone fstr : String) (args : List String),
       processRmCommand fs cwd home zone s fstr args =
         processRmCommand fs cwd home zone "false" fstr args) ∧
    (∀ (fs : RmFS) (cwd home zone rstr : String) (args : List String),
       processRmCommand fs cwd home zone rstr s args =
         processRmCommand fs cwd home zone rstr "false" args) ∧
    (∀ (conn : LsConn) (mkDT : String → String) (cwd home zone vstr : String)
       (args : List String),
       processLsCommand conn mkDT cwd home zone s vstr args =
         processLsCommand conn mkDT cwd home zone "false" vstr args) ∧
    (∀ (conn : LsConn) (mkDT : String → String) (cwd home zone lstr : String)
       (args : List String),
       processLsCommand conn mkDT cwd home zone lstr s args =
         processLsCommand conn mkDT cwd home zone lstr "false" args) := by
  have hb : boolFlagValue s = false := by simp [boolFlagValue, h]
  have hf : boolFlagValue "false" = false := rfl
  refine ⟨hb, ?_, ?_, ?_, ?_⟩ <;> intros <;>
    simp [processRmCommand, processLsCommand, hb, hf]

/-- C9 (witness): the malformed flag value "banana" (rejected by
strconv.ParseBool) processes to false. -/
theorem boolflag_silent_default_witness :
    boolFlagValue "banana" = false :=
  (boolflag_silent_default "banana" "invalid syntax" rfl).1

/-! ### C10 — ls with no arguments lists "." (the CWD); argument order -/

/-- C10: with zero path arguments the ls command lists exactly the one path
".", which the resolver sends to the current working collection; with one
or more arguments it runs the loop on exactly the given paths in argument
order; a path whose listing succeeds contributes its lines before the rest
of the loop's output, and a path whose listing fails stops the loop with
the wrapped error, so later paths are not listed. -/
theorem ls_default_dot_and_order :
    (∀ (conn : LsConn) (mkDT : String → String)
       (cwd home zone lstr vstr : String),
       processLsCommand conn mkDT cwd home zone lstr vstr [] =
         lsLoop conn mkDT cwd home zone ["."]
           (boolFlagValue lstr) (boolFlagValue vstr)) ∧
    (∀ cwd home zone : String, MakeIRODSPath cwd home zone "." = cwd) ∧
    (∀ (conn : LsConn) (mkDT : String → String)
       (cwd home zone lstr vstr : String) (args : List String),
       args ≠ [] →
       processLsCommand conn mkDT cwd home zone lstr vstr args =
         lsLoop conn mkDT cwd home zone args
           (boolFlagValue lstr) (boolFlagValue vstr)) ∧
    (∀ (conn : LsConn) (mkDT : String → String) (cwd home zone p : String)
       (rest : List String) (l vl : Bool) (out : List String),
       listOne conn mkDT cwd home zone p l vl = .ok out →
       lsLoop conn mkDT cwd home zone (p :: rest) l vl =
         (out ++ (lsLoop conn mkDT cwd home zone rest l vl).1,
          (lsLoop conn mkDT cwd home zone rest l vl).2)) ∧
    (∀ (conn : LsConn) (mkDT : String → String) (cwd home zone p : String)
       (rest : List String) (l vl : Bool) (e : String),
       listOne conn mkDT cwd home zone p l vl = .error e →
       lsLoop conn mkDT cwd home zone (p :: rest) l vl =
         ([], some ("failed to perform ls " ++ p ++ ": " ++ e))) := by
  refine ⟨?_, ?_, ?_, ?_, ?_⟩
  · intro conn mkDT cwd home zone lstr vstr
    simp [processLsCommand]
  · intro cwd home zone
    rfl
  · intro conn mkDT cwd home zone lstr vstr args hargs
    cases args with
    | nil => exact absurd rfl hargs
    | cons a as => simp [processLsCommand]
  · intro conn mkDT cwd home zone p rest l vl out h
    simp [lsLoop, h]
  · intro conn mkDT cwd home zone p rest l vl e h
    simp [lsLoop, h]

/-- C10 (witness): in the concrete namespace `connC4` with CWD `/T`: the
zero-argument invocation equals the loop on `["."]`; `.` resolves to the
CWD; a successful first path contributes its lines before the rest; a
failing first path stops the loop with the wrapped error. -/
theorem ls_default_dot_and_order_witness :
    processLsCommand connC4 id "/T" "/h" "z" "false" "false" [] =
      lsLoop connC4 id "/T" "/h" "z" ["."]
        (boolFlagValue "false") (boolFlagValue "false") ∧
    MakeIRODSPath "/T" "/h" "z" "." = "/T" ∧
    lsLoop connC4 id "/T" "/h" "z" ("." :: ["/nope"]) false false =
      (["  a", "  b", "  C- /T/y", "  C- /T/z"] ++
         (lsLoop connC4 id "/T" "/h" "z" ["/nope"] false false).1,
       (lsLoop connC4 id "/T" "/h" "z" ["/nope"] false false).2) ∧
    lsLoop connC4 id "/T" "/h" "z" ("/nope" :: ["/later"]) false false =
      ([], some ("failed to perform ls " ++ "/nope" ++ ": " ++
        ("failed to get collection " ++ "/" ++ ": " ++
          ("collection not found " ++ "/")))) :=
  ⟨ls_default_dot_and_order.1 connC4 id "/T" "/h" "z" "false" "false",
   ls_default_dot_and_order.2.1 "/T" "/h" "z",
   ls_default_dot_and_order.2.2.2.1 connC4 id "/T" "/h" "z" "." ["/nope"]
     false false ["  a", "  b", "  C- /T/y", "  C- /T/z"] rfl,
   ls_default_dot_and_order.2.2.2.2 connC4 id "/T" "/h" "z" "/nope" ["/later"]
     false false
     ("failed to get collection " ++ "/" ++ ": " ++ ("collection not found " ++ "/"))
     rfl⟩

end Gocommands
